import Mathlib

/-!
Shallow embedding of `src/provider/form-factory-provider.tsx` from
openmrs-esm-form-engine-lib. The file holds three variants of the
`FormFactoryProvider` component (separated in the source dump) plus the
`IncompleteFormConfirmationModal`. We model one submission run of the
`useEffect` submission handler of each variant as a pure function from the
provider's inputs to a trace of observable events (processor dispatches,
state setters, snackbars, toasts, post-submission actions, modal
interactions). External collaborators (`validateForm`, `validateEmptyForm`,
`validateEmptyFields`, each form's `processor.processSubmission`, the
`handleEmptyFormSubmission` callback) are oracles: their outcomes are
fields of the input, since their implementations live outside this
repository and the orchestration only branches on their results.
-/

namespace FormEngine

/-- A value thrown by a rejecting `processSubmission` promise: either an
`instanceof Error` object carrying a message, or any other raw value. -/
inductive Thrown where
  | errObj (msg : String)
  | raw (payload : Nat)
deriving DecidableEq, Repr

deriving instance DecidableEq for Except

/-- One registered form context, abstracting `FormContextProps`. The Bool
fields are the outcomes of the external helpers `validateForm`,
`validateEmptyForm` and `validateEmptyFields` on this context; `outcome`
is the settled result of `formContext.processor.processSubmission`
(resolution value modeled as a `Nat` id, or the thrown rejection value). -/
structure FormCtx where
  valid : Bool
  emptyForm : Bool
  emptyFields : Bool
  outcome : Except Thrown Nat
deriving DecidableEq, Repr

/-- Outcome of the injected `handleEmptyFormSubmission` callback in the
variants that accept it: a promise that resolves, a promise that rejects,
a plain boolean, or any other non-promise value. -/
inductive EmptyHandlerResult where
  | resolves
  | rejects
  | boolRes (b : Bool)
  | otherRes
deriving DecidableEq, Repr

/-- The provider's inputs relevant to one submission run: the root form,
the registered sub-forms (in `Object.values` order), the session mode,
whether `postSubmissionHandlers` / `onSubmit` are present, and the
`handleEmptyFormSubmission` callback when the variant takes one. -/
structure ProviderInput where
  rootForm : FormCtx
  subForms : List FormCtx
  sessionModeEdit : Bool
  hasPostHandlers : Bool
  hasOnSubmit : Bool
  emptyHandler : Option EmptyHandlerResult
deriving DecidableEq, Repr

/-- The list `[rootForm.current, ...Object.values(subForms.current)]`. -/
def ProviderInput.forms (inp : ProviderInput) : List FormCtx :=
  inp.rootForm :: inp.subForms

/-- External helper `validateForm` applied to a form context. -/
def validateForm (f : FormCtx) : Bool := f.valid

/-- External helper `validateEmptyForm` applied to a form context. -/
def validateEmptyForm (f : FormCtx) : Bool := f.emptyForm

/-- External helper `validateEmptyFields` applied to a form context. -/
def validateEmptyFields (f : FormCtx) : Bool := f.emptyFields

/-- The argument passed to `showToast`: either a descriptor built in the
catch block, or the raw thrown value passed through unmodified. -/
inductive ToastArg where
  | descriptor (title : String) (kind : String) (critical : Bool) (description : String)
  | passthrough (v : Thrown)
deriving DecidableEq, Repr

/-- Observable events of a submission run. `validateAll` and `emptyCheck`
record the (pure) calls to the validation helpers; `processCall i token`
records dispatching `processSubmission` for the form at index `i` with the
shared `AbortController` identified by `token`; the rest mirror the
side-effecting calls in the source. -/
inductive Event where
  | validateAll (ok : Bool)
  | emptyCheck (empty : Bool)
  | modalOpen
  | modalClose
  | confirmChoice
  | discardChoice
  | emptyHandlerCall
  | processCall (formIdx : Nat) (token : Nat)
  | setSubmitting (b : Bool)
  | snackbarSuccess (edit : Bool)
  | toastCall (arg : ToastArg)
  | postActions (results : List Nat)
  | hideToggle
  | onSubmitCall (results : List Nat)
  | closeForm
  | discardForm
  | abortEv (token : Nat)
deriving DecidableEq, Repr

/-- Joined outcome of `Promise.all(forms.map(f => f.processor.processSubmission(f, ac)))`:
the list of resolution values in form order, or the first rejection. -/
def collectResults : List FormCtx → Except Thrown (List Nat)
  | [] => .ok []
  | f :: rest =>
    match f.outcome with
    | .ok r => (collectResults rest).map (fun rs => r :: rs)
    | .error e => .error e

/-- The synchronous dispatch of `processSubmission` for each of the `n`
forms, every call sharing the same controller `token`. -/
def submissionCalls (n : Nat) (token : Nat) : List Event :=
  (List.range n).map (fun i => .processCall i token)

/-- The catch block's `showToast` call: an `Error` instance becomes a
critical error descriptor carrying its message, anything else is passed to
`showToast` unmodified. -/
def errorToast : Thrown → Event
  | .errObj msg => .toastCall (.descriptor "Error processing form submission" "error" true msg)
  | t => .toastCall (.passthrough t)

/-- The continuation of `handleFormSubmission` after the awaited
`Promise.all`: on success, reset `isSubmitting`, show the success
snackbar, run post-submission actions when handlers exist, hide the
collapse toggle, then call `onSubmit` with the results or `handleClose`;
on rejection, reset `isSubmitting` and show the toast. -/
def submissionRest (inp : ProviderInput) : List Event :=
  match collectResults inp.forms with
  | .ok results =>
    [.setSubmitting false, .snackbarSuccess inp.sessionModeEdit] ++
    (if inp.hasPostHandlers then [.postActions results] else []) ++
    [.hideToggle] ++
    (if inp.hasOnSubmit then [.onSubmitCall results] else [.closeForm])
  | .error e => [.setSubmitting false, errorToast e]

/-- The shared processor-submission routine (`handleFormSubmission` in
variant 2; the identical inlined try/catch in variants 1 and 3). -/
def handleFormSubmission (inp : ProviderInput) (token : Nat) : List Event :=
  submissionCalls inp.forms.length token ++ submissionRest inp

/-- Variant 1's branch for a valid, empty form when the
`handleEmptyFormSubmission` callback is present: call it; a resolving
promise, `true`, or any non-promise non-boolean value leads to
`handleClose`; a rejection or `false` does not; then `setIsSubmitting(false)`. -/
def emptyBranchV1 : EmptyHandlerResult → List Event
  | .resolves => [.emptyHandlerCall, .closeForm, .setSubmitting false]
  | .rejects => [.emptyHandlerCall, .setSubmitting false]
  | .boolRes true => [.emptyHandlerCall, .closeForm, .setSubmitting false]
  | .boolRes false => [.emptyHandlerCall, .setSubmitting false]
  | .otherRes => [.emptyHandlerCall, .closeForm, .setSubmitting false]

/-- Variant 1's `useEffect` submission handler (the local async
`handleFormSubmission`): validate all forms; if valid, check emptiness
with `validateEmptyForm` on every form; an empty form with a present
callback takes the empty branch and returns, otherwise the processors
run; an invalid form only resets `isSubmitting`. -/
def handleFormSubmissionV1 (inp : ProviderInput) (token : Nat) (isSubmitting : Bool) :
    List Event :=
  if isSubmitting then
    let isValid := inp.forms.all validateForm
    if isValid then
      let isEmpty := inp.forms.all validateEmptyForm
      .validateAll isValid :: .emptyCheck isEmpty ::
        (match inp.emptyHandler with
         | some h => if isEmpty then emptyBranchV1 h else handleFormSubmission inp token
         | none => handleFormSubmission inp token)
    else [.validateAll isValid, .setSubmitting false]
  else []

/-- Variant 3's branch for a valid, empty form when the callback is
present: `await handleEmptyFormSubmission()` — on rejection only
`setIsSubmitting(false)`; any non-throwing outcome (including awaiting a
plain boolean or other value) continues to `handleDiscardForm()` then
`setIsSubmitting(false)`. -/
def emptyBranchV3 : EmptyHandlerResult → List Event
  | .rejects => [.emptyHandlerCall, .setSubmitting false]
  | _ => [.emptyHandlerCall, .discardForm, .setSubmitting false]

/-- Variant 3's `useEffect` submission handler: both validity and
emptiness (`validateEmptyForm` on every form) are computed up front; an
empty and valid form with a present callback takes the empty branch and
returns; otherwise a valid form runs the processors and an invalid one
only resets `isSubmitting`. -/
def handleFormSubmissionV3 (inp : ProviderInput) (token : Nat) (isSubmitting : Bool) :
    List Event :=
  if isSubmitting then
    let isValid := inp.forms.all validateForm
    let isEmpty := inp.forms.all validateEmptyForm
    .validateAll isValid :: .emptyCheck isEmpty ::
      (match inp.emptyHandler with
       | some h =>
         if isEmpty && isValid then emptyBranchV3 h
         else if isValid then handleFormSubmission inp token
         else [.setSubmitting false]
       | none =>
         if isValid then handleFormSubmission inp token
         else [.setSubmitting false])
  else []

/-- The user's interaction with the empty-form confirmation modal once it
is open: confirm, discard, or leave it open. -/
inductive UserChoice where
  | confirm
  | discard
  | noAction
deriving DecidableEq, Repr

/-- Variant 2's `handleIncompleteFormConfirmation`: it invokes the shared
`handleFormSubmission` (whose synchronous prefix dispatches the processor
calls), then closes the modal; the awaited continuation runs afterwards. -/
def handleIncompleteFormConfirmation (inp : ProviderInput) (token : Nat) : List Event :=
  .confirmChoice :: (submissionCalls inp.forms.length token ++
    (.modalClose :: submissionRest inp))

/-- Variant 2's `handleIncompleteFormDiscard`: close the modal and reset
`isSubmitting`; no processor is invoked. -/
def handleIncompleteFormDiscard : List Event :=
  [.discardChoice, .modalClose, .setSubmitting false]

/-- Variant 2's `useEffect` submission handler together with the modal
interaction: validity uses `validateForm` on every form, emptiness uses
`validateEmptyFields` on some form; a valid empty form opens the
confirmation modal and the run continues with the user's choice; a valid
non-empty form runs the processors directly; an invalid form resets
`isSubmitting`. -/
def formFactoryEffectV2 (inp : ProviderInput) (token : Nat) (isSubmitting : Bool)
    (choice : UserChoice) : List Event :=
  if isSubmitting then
    let isValid := inp.forms.all validateForm
    let isEmpty := inp.forms.any validateEmptyFields
    .validateAll isValid :: .emptyCheck isEmpty ::
      (if isValid then
        if isEmpty then
          .modalOpen ::
            (match choice with
             | .confirm => handleIncompleteFormConfirmation inp token
             | .discard => handleIncompleteFormDiscard
             | .noAction => [])
        else handleFormSubmission inp token
      else [.setSubmitting false])
  else []

/-- The three variants of `FormFactoryProvider` present in the source. -/
inductive Variant where
  | v1
  | v2
  | v3
deriving DecidableEq, Repr

/-- One submission run of the chosen variant (the `UserChoice` is ignored
by the variants without the modal). -/
def runSubmission : Variant → ProviderInput → Nat → Bool → UserChoice → List Event
  | .v1, inp, tk, s, _ => handleFormSubmissionV1 inp tk s
  | .v2, inp, tk, s, c => formFactoryEffectV2 inp tk s c
  | .v3, inp, tk, s, _ => handleFormSubmissionV3 inp tk s

/-- The cleanup returned by each variant's submission `useEffect`:
variants 1 and 3 return a function aborting the controller; variant 2's
effect returns nothing. -/
def effectCleanup : Variant → Nat → List Event
  | .v1, token => [.abortEv token]
  | .v2, _ => []
  | .v3, token => [.abortEv token]

/-- User actions on `IncompleteFormConfirmationModal`. -/
inductive ModalAction where
  | clickConfirm
  | clickCancel
  | closeAction
deriving DecidableEq, Repr

/-- The modal's wiring: the Confirm button fires `onConfirmation`; the
Cancel button and the `ComposedModal` `onClose` both fire `onDiscard`. -/
def incompleteFormConfirmationModal : ModalAction → UserChoice
  | .clickConfirm => .confirm
  | .clickCancel => .discard
  | .closeAction => .discard

/-- Events that model pure helper calls or the user's click itself rather
than an observable effect of the orchestration. -/
def isMarker : Event → Bool
  | .validateAll _ => true
  | .emptyCheck _ => true
  | .confirmChoice => true
  | .discardChoice => true
  | _ => false

/-- The observable effects of a trace (markers filtered out). -/
def observables (tr : List Event) : List Event :=
  tr.filter (fun e => !isMarker e)

/-- Projection extracting a toast call's argument. -/
def toastProj : Event → Option ToastArg
  | .toastCall a => some a
  | _ => none

/-- All toast arguments shown during a trace, in order. -/
def toasts (tr : List Event) : List ToastArg := tr.filterMap toastProj

/-- Projection extracting the form index and controller token of a
processor dispatch. -/
def procProj : Event → Option (Nat × Nat)
  | .processCall i t => some (i, t)
  | _ => none

/-- All processor dispatches (form index, controller token) of a trace,
in order. -/
def procCalls (tr : List Event) : List (Nat × Nat) := tr.filterMap procProj

/-- Whether any `processSubmission` call was dispatched in the trace. -/
def dispatched (tr : List Event) : Bool := tr.any (fun e => (procProj e).isSome)

/-- The value of the `isSubmitting` flag after replaying the trace's
`setSubmitting` events over the initial value. -/
def submittingAfter (init : Bool) (tr : List Event) : Bool :=
  tr.foldl (fun s e => match e with | .setSubmitting b => b | _ => s) init

/-- Every event satisfying `p` occurs strictly before every event
satisfying `q`: no `p`-event appears at or after a `q`-event. -/
def precedesB (p q : Event → Bool) : List Event → Bool
  | [] => true
  | e :: tr => (if q e then tr.all (fun x => !p x) else true) && precedesB p q tr

def isValidateEv : Event → Bool
  | .validateAll _ => true
  | _ => false

def isEmptyCheckEv : Event → Bool
  | .emptyCheck _ => true
  | _ => false

def isConfirmEv : Event → Bool
  | .confirmChoice => true
  | _ => false

def isModalOpenEv : Event → Bool
  | .modalOpen => true
  | _ => false

def isModalCloseEv : Event → Bool
  | .modalClose => true
  | _ => false

def isProcessEv : Event → Bool
  | .processCall _ _ => true
  | _ => false

def isPostActionsEv : Event → Bool
  | .postActions _ => true
  | _ => false

def isSnackbarEv : Event → Bool
  | .snackbarSuccess _ => true
  | _ => false

def isToastEv : Event → Bool
  | .toastCall _ => true
  | _ => false

/-- Closing the form: `handleClose`, the `onSubmit` completion callback,
or variant 3's `handleDiscardForm`. -/
def isCloseEv : Event → Bool
  | .closeForm => true
  | .onSubmitCall _ => true
  | .discardForm => true
  | _ => false

/-- Notifying the user: a snackbar or a toast. -/
def isNotifyEv (e : Event) : Bool := isSnackbarEv e || isToastEv e

/-- The stage order claimed for every submission run: validate before
empty-check, empty-check before confirmation, confirmation before any
processor call, processor calls before post-submission actions, and
post-submission actions before the form is closed or the user is
notified. -/
def stageOrdered (tr : List Event) : Bool :=
  precedesB isValidateEv isEmptyCheckEv tr &&
  precedesB isEmptyCheckEv isConfirmEv tr &&
  precedesB isConfirmEv isProcessEv tr &&
  precedesB isProcessEv isPostActionsEv tr &&
  precedesB isPostActionsEv (fun e => isCloseEv e || isNotifyEv e) tr

/-- The amended stage order actually implemented: as claimed, except that
only closing the form and the error toast come after post-submission
actions; the success snackbar is shown after processing completes but
before post-submission actions run. -/
def stageOrderedAmended (tr : List Event) : Bool :=
  precedesB isValidateEv isEmptyCheckEv tr &&
  precedesB isEmptyCheckEv isConfirmEv tr &&
  precedesB isConfirmEv isProcessEv tr &&
  precedesB isProcessEv isPostActionsEv tr &&
  precedesB isPostActionsEv (fun e => isCloseEv e || isToastEv e) tr &&
  precedesB isProcessEv isSnackbarEv tr &&
  precedesB isSnackbarEv isPostActionsEv tr

/-- The toast argument the claim expects for a thrown value `e`. -/
def expectedToastArg : Thrown → ToastArg
  | .errObj msg => .descriptor "Error processing form submission" "error" true msg
  | t => .passthrough t

/-- The per-variant condition under which the run treats the submission as
empty: variants 1 and 3 require every form to pass `validateEmptyForm`,
variant 2 requires some form to pass `validateEmptyFields`. -/
def variantEmpty : Variant → ProviderInput → Bool
  | .v1, inp => inp.forms.all validateEmptyForm
  | .v2, inp => inp.forms.any validateEmptyFields
  | .v3, inp => inp.forms.all validateEmptyForm

/-- The single run shape in which `isSubmitting` is deliberately left
`true`: variant 2 opened the confirmation modal and the user has neither
confirmed nor discarded yet. -/
def modalPendingRun (v : Variant) (inp : ProviderInput) (c : UserChoice) : Bool :=
  (match v with | .v2 => true | _ => false) &&
  inp.forms.all validateForm && inp.forms.any validateEmptyFields &&
  (match c with | .noAction => true | _ => false)

/-- Concrete sample form contexts and provider inputs used by the
counterexample and witness theorems. -/
def sampleOkForm : FormCtx :=
  { valid := true, emptyForm := false, emptyFields := false, outcome := .ok 7 }

def sampleEmptyForm : FormCtx :=
  { valid := true, emptyForm := true, emptyFields := true, outcome := .ok 3 }

def sampleInvalidForm : FormCtx :=
  { valid := false, emptyForm := false, emptyFields := false, outcome := .ok 1 }

def sampleErrForm : FormCtx :=
  { valid := true, emptyForm := false, emptyFields := false, outcome := .error (.errObj "boom") }

def sampleInputPost : ProviderInput :=
  { rootForm := sampleOkForm, subForms := [], sessionModeEdit := false,
    hasPostHandlers := true, hasOnSubmit := true, emptyHandler := none }

def sampleInputErr : ProviderInput :=
  { rootForm := sampleOkForm, subForms := [sampleErrForm], sessionModeEdit := false,
    hasPostHandlers := true, hasOnSubmit := true, emptyHandler := none }

def sampleInputInvalid : ProviderInput :=
  { rootForm := sampleInvalidForm, subForms := [sampleOkForm], sessionModeEdit := false,
    hasPostHandlers := true, hasOnSubmit := true, emptyHandler := some .resolves }

def sampleInputEmpty : ProviderInput :=
  { rootForm := sampleEmptyForm, subForms := [sampleEmptyForm], sessionModeEdit := true,
    hasPostHandlers := false, hasOnSubmit := false, emptyHandler := some .rejects }

def sampleInputNoHandler : ProviderInput :=
  { rootForm := sampleEmptyForm, subForms := [sampleEmptyForm], sessionModeEdit := true,
    hasPostHandlers := false, hasOnSubmit := false, emptyHandler := none }

theorem precedesB_nil (p q : Event → Bool) : precedesB p q [] = true := rfl

theorem precedesB_cons (p q : Event → Bool) (e : Event) (tr : List Event) :
    precedesB p q (e :: tr) =
      ((if q e then tr.all (fun x => !p x) else true) && precedesB p q tr) := rfl

theorem precedesB_of_all_not_p (p q : Event → Bool) (tr : List Event)
    (h : tr.all (fun x => !p x) = true) : precedesB p q tr = true := by
  induction tr with
  | nil => rfl
  | cons e tr ih =>
    rw [List.all_cons, Bool.and_eq_true] at h
    rw [precedesB_cons, ih h.2, h.2, Bool.and_true]
    cases q e <;> simp

theorem precedesB_of_all_not_q (p q : Event → Bool) (tr : List Event)
    (h : tr.all (fun x => !q x) = true) : precedesB p q tr = true := by
  induction tr with
  | nil => rfl
  | cons e tr ih =>
    rw [List.all_cons, Bool.and_eq_true] at h
    have he : q e = false := by
      cases hqe : q e
      · rfl
      · rw [hqe] at h; simp at h
    rw [precedesB_cons, he, ih h.2]
    simp

theorem precedesB_cons_not_q (p q : Event → Bool) (e : Event) (tr : List Event)
    (he : q e = false) : precedesB p q (e :: tr) = precedesB p q tr := by
  rw [precedesB_cons, he]
  simp

theorem precedesB_cons_q (p q : Event → Bool) (e : Event) (tr : List Event)
    (he : q e = true) (hall : tr.all (fun x => !p x) = true)
    (hrec : precedesB p q tr = true) : precedesB p q (e :: tr) = true := by
  rw [precedesB_cons, he, hall, hrec]
  simp

theorem precedesB_append_no_q (p q : Event → Bool) (a L : List Event)
    (ha : a.all (fun x => !q x) = true) :
    precedesB p q (a ++ L) = precedesB p q L := by
  induction a with
  | nil => rfl
  | cons e a ih =>
    rw [List.all_cons, Bool.and_eq_true] at ha
    have he : q e = false := by
      cases hqe : q e
      · rfl
      · rw [hqe] at ha; simp at ha
    rw [List.cons_append, precedesB_cons_not_q p q e _ he, ih ha.2]

theorem precedesB_append_no_p (p q : Event → Bool) (a L : List Event)
    (hL : L.all (fun x => !p x) = true) :
    precedesB p q (a ++ L) = precedesB p q a := by
  induction a with
  | nil => rw [List.nil_append, precedesB_nil, precedesB_of_all_not_p p q L hL]
  | cons e a ih =>
    rw [List.cons_append, precedesB_cons, precedesB_cons, ih, List.all_append, hL,
      Bool.and_true]

theorem submissionCalls_all (p : Event → Bool) (n tk : Nat)
    (hp : ∀ i t, p (Event.processCall i t) = true) :
    (submissionCalls n tk).all p = true := by
  rw [List.all_eq_true]
  intro x hx
  rw [submissionCalls, List.mem_map] at hx
  obtain ⟨i, _, rfl⟩ := hx
  exact hp i tk

theorem submissionRest_all (p : Event → Bool) (inp : ProviderInput)
    (h1 : ∀ b, p (.setSubmitting b) = true) (h2 : ∀ b, p (.snackbarSuccess b) = true)
    (h3 : ∀ a, p (.toastCall a) = true) (h4 : ∀ rs, p (.postActions rs) = true)
    (h5 : p .hideToggle = true) (h6 : ∀ rs, p (.onSubmitCall rs) = true)
    (h7 : p .closeForm = true) :
    (submissionRest inp).all p = true := by
  unfold submissionRest
  cases collectResults inp.forms with
  | ok rs =>
    cases inp.hasPostHandlers <;> cases inp.hasOnSubmit <;>
      simp [List.all_append, h1, h2, h3, h4, h5, h6, h7]
  | error e =>
    cases e <;> simp [errorToast, h1, h3]

theorem restNoPostProcess (inp : ProviderInput) :
    precedesB isPostActionsEv (fun e => isCloseEv e || isToastEv e)
      (submissionRest inp) = true := by
  unfold submissionRest
  cases collectResults inp.forms with
  | ok rs => cases inp.hasPostHandlers <;> cases inp.hasOnSubmit <;> rfl
  | error e => cases e <;> rfl

theorem restSnackbarFirst (inp : ProviderInput) :
    precedesB isSnackbarEv isPostActionsEv (submissionRest inp) = true := by
  unfold submissionRest
  cases collectResults inp.forms with
  | ok rs => cases inp.hasPostHandlers <;> cases inp.hasOnSubmit <;> rfl
  | error e => cases e <;> rfl

theorem stageOrderedAmended_process (b1 b2 : Bool) (inp : ProviderInput) (tk : Nat) :
    stageOrderedAmended
      (Event.validateAll b1 :: Event.emptyCheck b2 :: handleFormSubmission inp tk) = true := by
  have callsNoVal : (submissionCalls inp.forms.length tk).all (fun x => !isValidateEv x) = true :=
    submissionCalls_all _ _ _ (fun _ _ => rfl)
  have callsNoEmp : (submissionCalls inp.forms.length tk).all (fun x => !isEmptyCheckEv x) = true :=
    submissionCalls_all _ _ _ (fun _ _ => rfl)
  have callsNoConfirm : (submissionCalls inp.forms.length tk).all (fun x => !isConfirmEv x) = true :=
    submissionCalls_all _ _ _ (fun _ _ => rfl)
  have callsNoPost : (submissionCalls inp.forms.length tk).all (fun x => !isPostActionsEv x) = true :=
    submissionCalls_all _ _ _ (fun _ _ => rfl)
  have callsNoCloseToast :
      (submissionCalls inp.forms.length tk).all (fun x => !(isCloseEv x || isToastEv x)) = true :=
    submissionCalls_all _ _ _ (fun _ _ => rfl)
  have callsNoSnack : (submissionCalls inp.forms.length tk).all (fun x => !isSnackbarEv x) = true :=
    submissionCalls_all _ _ _ (fun _ _ => rfl)
  have restNoVal : (submissionRest inp).all (fun x => !isValidateEv x) = true :=
    submissionRest_all _ inp (fun _ => rfl) (fun _ => rfl) (fun _ => rfl) (fun _ => rfl) rfl
      (fun _ => rfl) rfl
  have restNoEmp : (submissionRest inp).all (fun x => !isEmptyCheckEv x) = true :=
    submissionRest_all _ inp (fun _ => rfl) (fun _ => rfl) (fun _ => rfl) (fun _ => rfl) rfl
      (fun _ => rfl) rfl
  have restNoConfirm : (submissionRest inp).all (fun x => !isConfirmEv x) = true :=
    submissionRest_all _ inp (fun _ => rfl) (fun _ => rfl) (fun _ => rfl) (fun _ => rfl) rfl
      (fun _ => rfl) rfl
  have restNoProcess : (submissionRest inp).all (fun x => !isProcessEv x) = true :=
    submissionRest_all _ inp (fun _ => rfl) (fun _ => rfl) (fun _ => rfl) (fun _ => rfl) rfl
      (fun _ => rfl) rfl
  have tNoConfirm :
      (Event.validateAll b1 :: Event.emptyCheck b2 ::
        (submissionCalls inp.forms.length tk ++ submissionRest inp)).all
        (fun x => !isConfirmEv x) = true := by
    rw [List.all_cons, List.all_cons, List.all_append, callsNoConfirm, restNoConfirm]
    rfl
  have h1 : precedesB isValidateEv isEmptyCheckEv
      (Event.validateAll b1 :: Event.emptyCheck b2 ::
        (submissionCalls inp.forms.length tk ++ submissionRest inp)) = true := by
    rw [precedesB_cons_not_q _ _ _ _ rfl]
    apply precedesB_cons_q _ _ _ _ rfl
    · rw [List.all_append, callsNoVal, restNoVal]
      rfl
    · rw [precedesB_append_no_q _ _ _ _ callsNoEmp]
      exact precedesB_of_all_not_q _ _ _ restNoEmp
  have h2 : precedesB isEmptyCheckEv isConfirmEv
      (Event.validateAll b1 :: Event.emptyCheck b2 ::
        (submissionCalls inp.forms.length tk ++ submissionRest inp)) = true :=
    precedesB_of_all_not_q _ _ _ tNoConfirm
  have h3 : precedesB isConfirmEv isProcessEv
      (Event.validateAll b1 :: Event.emptyCheck b2 ::
        (submissionCalls inp.forms.length tk ++ submissionRest inp)) = true :=
    precedesB_of_all_not_p _ _ _ tNoConfirm
  have h4 : precedesB isProcessEv isPostActionsEv
      (Event.validateAll b1 :: Event.emptyCheck b2 ::
        (submissionCalls inp.forms.length tk ++ submissionRest inp)) = true := by
    rw [precedesB_cons_not_q _ _ _ _ rfl, precedesB_cons_not_q _ _ _ _ rfl,
      precedesB_append_no_q _ _ _ _ callsNoPost]
    exact precedesB_of_all_not_p _ _ _ restNoProcess
  have h5 : precedesB isPostActionsEv (fun e => isCloseEv e || isToastEv e)
      (Event.validateAll b1 :: Event.emptyCheck b2 ::
        (submissionCalls inp.forms.length tk ++ submissionRest inp)) = true := by
    rw [precedesB_cons_not_q _ _ _ _ rfl, precedesB_cons_not_q _ _ _ _ rfl,
      precedesB_append_no_q _ _ _ _ callsNoCloseToast]
    exact restNoPostProcess inp
  have h6 : precedesB isProcessEv isSnackbarEv
      (Event.validateAll b1 :: Event.emptyCheck b2 ::
        (submissionCalls inp.forms.length tk ++ submissionRest inp)) = true := by
    rw [precedesB_cons_not_q _ _ _ _ rfl, precedesB_cons_not_q _ _ _ _ rfl,
      precedesB_append_no_q _ _ _ _ callsNoSnack]
    exact precedesB_of_all_not_p _ _ _ restNoProcess
  have h7 : precedesB isSnackbarEv isPostActionsEv
      (Event.validateAll b1 :: Event.emptyCheck b2 ::
        (submissionCalls inp.forms.length tk ++ submissionRest inp)) = true := by
    rw [precedesB_cons_not_q _ _ _ _ rfl, precedesB_cons_not_q _ _ _ _ rfl,
      precedesB_append_no_q _ _ _ _ callsNoPost]
    exact restSnackbarFirst inp
  unfold handleFormSubmission
  unfold stageOrderedAmended
  rw [h1, h2, h3, h4, h5, h6, h7]
  rfl

theorem callsNoVal (n tk : Nat) :
    (submissionCalls n tk).all (fun x => !isValidateEv x) = true :=
  submissionCalls_all _ _ _ (fun _ _ => rfl)

theorem callsNoEmp (n tk : Nat) :
    (submissionCalls n tk).all (fun x => !isEmptyCheckEv x) = true :=
  submissionCalls_all _ _ _ (fun _ _ => rfl)

theorem callsNoConfirm (n tk : Nat) :
    (submissionCalls n tk).all (fun x => !isConfirmEv x) = true :=
  submissionCalls_all _ _ _ (fun _ _ => rfl)

theorem callsNoPost (n tk : Nat) :
    (submissionCalls n tk).all (fun x => !isPostActionsEv x) = true :=
  submissionCalls_all _ _ _ (fun _ _ => rfl)

theorem callsNoCloseToast (n tk : Nat) :
    (submissionCalls n tk).all (fun x => !(isCloseEv x || isToastEv x)) = true :=
  submissionCalls_all _ _ _ (fun _ _ => rfl)

theorem callsNoSnack (n tk : Nat) :
    (submissionCalls n tk).all (fun x => !isSnackbarEv x) = true :=
  submissionCalls_all _ _ _ (fun _ _ => rfl)

theorem callsNoModalOpen (n tk : Nat) :
    (submissionCalls n tk).all (fun x => !isModalOpenEv x) = true :=
  submissionCalls_all _ _ _ (fun _ _ => rfl)

theorem restNoVal (inp : ProviderInput) :
    (submissionRest inp).all (fun x => !isValidateEv x) = true :=
  submissionRest_all _ inp (fun _ => rfl) (fun _ => rfl) (fun _ => rfl) (fun _ => rfl) rfl
    (fun _ => rfl) rfl

theorem restNoEmp (inp : ProviderInput) :
    (submissionRest inp).all (fun x => !isEmptyCheckEv x) = true :=
  submissionRest_all _ inp (fun _ => rfl) (fun _ => rfl) (fun _ => rfl) (fun _ => rfl) rfl
    (fun _ => rfl) rfl

theorem restNoConfirm (inp : ProviderInput) :
    (submissionRest inp).all (fun x => !isConfirmEv x) = true :=
  submissionRest_all _ inp (fun _ => rfl) (fun _ => rfl) (fun _ => rfl) (fun _ => rfl) rfl
    (fun _ => rfl) rfl

theorem restNoProcess (inp : ProviderInput) :
    (submissionRest inp).all (fun x => !isProcessEv x) = true :=
  submissionRest_all _ inp (fun _ => rfl) (fun _ => rfl) (fun _ => rfl) (fun _ => rfl) rfl
    (fun _ => rfl) rfl

theorem restNoModalOpen (inp : ProviderInput) :
    (submissionRest inp).all (fun x => !isModalOpenEv x) = true :=
  submissionRest_all _ inp (fun _ => rfl) (fun _ => rfl) (fun _ => rfl) (fun _ => rfl) rfl
    (fun _ => rfl) rfl

theorem stageOrderedAmended_confirm (b1 b2 : Bool) (inp : ProviderInput) (tk : Nat) :
    stageOrderedAmended
      (Event.validateAll b1 :: Event.emptyCheck b2 :: Event.modalOpen ::
        handleIncompleteFormConfirmation inp tk) = true := by
  have lNoVal : (Event.modalClose :: submissionRest inp).all (fun x => !isValidateEv x) = true := by
    rw [List.all_cons, restNoVal]
    rfl
  have lNoEmp : (Event.modalClose :: submissionRest inp).all (fun x => !isEmptyCheckEv x) = true := by
    rw [List.all_cons, restNoEmp]
    rfl
  have lNoConfirm :
      (Event.modalClose :: submissionRest inp).all (fun x => !isConfirmEv x) = true := by
    rw [List.all_cons, restNoConfirm]
    rfl
  have abNoVal :
      (submissionCalls inp.forms.length tk ++ (Event.modalClose :: submissionRest inp)).all
        (fun x => !isValidateEv x) = true := by
    rw [List.all_append, callsNoVal, lNoVal]
    rfl
  have abNoEmp :
      (submissionCalls inp.forms.length tk ++ (Event.modalClose :: submissionRest inp)).all
        (fun x => !isEmptyCheckEv x) = true := by
    rw [List.all_append, callsNoEmp, lNoEmp]
    rfl
  have abNoConfirm :
      (submissionCalls inp.forms.length tk ++ (Event.modalClose :: submissionRest inp)).all
        (fun x => !isConfirmEv x) = true := by
    rw [List.all_append, callsNoConfirm, lNoConfirm]
    rfl
  have h1 : precedesB isValidateEv isEmptyCheckEv
      (Event.validateAll b1 :: Event.emptyCheck b2 :: Event.modalOpen ::
        handleIncompleteFormConfirmation inp tk) = true := by
    unfold handleIncompleteFormConfirmation
    rw [precedesB_cons_not_q _ _ _ _ rfl]
    apply precedesB_cons_q _ _ _ _ rfl
    · rw [List.all_cons, List.all_cons, abNoVal]
      rfl
    · apply precedesB_of_all_not_q
      rw [List.all_cons, List.all_cons, abNoEmp]
      rfl
  have h2 : precedesB isEmptyCheckEv isConfirmEv
      (Event.validateAll b1 :: Event.emptyCheck b2 :: Event.modalOpen ::
        handleIncompleteFormConfirmation inp tk) = true := by
    unfold handleIncompleteFormConfirmation
    rw [precedesB_cons_not_q _ _ _ _ rfl, precedesB_cons_not_q _ _ _ _ rfl,
      precedesB_cons_not_q _ _ _ _ rfl]
    apply precedesB_cons_q _ _ _ _ rfl
    · exact abNoEmp
    · exact precedesB_of_all_not_q _ _ _ abNoConfirm
  have h3 : precedesB isConfirmEv isProcessEv
      (Event.validateAll b1 :: Event.emptyCheck b2 :: Event.modalOpen ::
        handleIncompleteFormConfirmation inp tk) = true := by
    unfold handleIncompleteFormConfirmation
    rw [precedesB_cons_not_q _ _ _ _ rfl, precedesB_cons_not_q _ _ _ _ rfl,
      precedesB_cons_not_q _ _ _ _ rfl, precedesB_cons_not_q _ _ _ _ rfl,
      precedesB_append_no_p _ _ _ _ lNoConfirm]
    exact precedesB_of_all_not_p _ _ _ (callsNoConfirm _ _)
  have h4 : precedesB isProcessEv isPostActionsEv
      (Event.validateAll b1 :: Event.emptyCheck b2 :: Event.modalOpen ::
        handleIncompleteFormConfirmation inp tk) = true := by
    unfold handleIncompleteFormConfirmation
    rw [precedesB_cons_not_q _ _ _ _ rfl, precedesB_cons_not_q _ _ _ _ rfl,
      precedesB_cons_not_q _ _ _ _ rfl, precedesB_cons_not_q _ _ _ _ rfl,
      precedesB_append_no_q _ _ _ _ (callsNoPost _ _), precedesB_cons_not_q _ _ _ _ rfl]
    exact precedesB_of_all_not_p _ _ _ (restNoProcess inp)
  have h5 : precedesB isPostActionsEv (fun e => isCloseEv e || isToastEv e)
      (Event.validateAll b1 :: Event.emptyCheck b2 :: Event.modalOpen ::
        handleIncompleteFormConfirmation inp tk) = true := by
    unfold handleIncompleteFormConfirmation
    rw [precedesB_cons_not_q _ _ _ _ rfl, precedesB_cons_not_q _ _ _ _ rfl,
      precedesB_cons_not_q _ _ _ _ rfl, precedesB_cons_not_q _ _ _ _ rfl,
      precedesB_append_no_q _ _ _ _ (callsNoCloseToast _ _), precedesB_cons_not_q _ _ _ _ rfl]
    exact restNoPostProcess inp
  have h6 : precedesB isProcessEv isSnackbarEv
      (Event.validateAll b1 :: Event.emptyCheck b2 :: Event.modalOpen ::
        handleIncompleteFormConfirmation inp tk) = true := by
    unfold handleIncompleteFormConfirmation
    rw [precedesB_cons_not_q _ _ _ _ rfl, precedesB_cons_not_q _ _ _ _ rfl,
      precedesB_cons_not_q _ _ _ _ rfl, precedesB_cons_not_q _ _ _ _ rfl,
      precedesB_append_no_q _ _ _ _ (callsNoSnack _ _), precedesB_cons_not_q _ _ _ _ rfl]
    exact precedesB_of_all_not_p _ _ _ (restNoProcess inp)
  have h7 : precedesB isSnackbarEv isPostActionsEv
      (Event.validateAll b1 :: Event.emptyCheck b2 :: Event.modalOpen ::
        handleIncompleteFormConfirmation inp tk) = true := by
    unfold handleIncompleteFormConfirmation
    rw [precedesB_cons_not_q _ _ _ _ rfl, precedesB_cons_not_q _ _ _ _ rfl,
      precedesB_cons_not_q _ _ _ _ rfl, precedesB_cons_not_q _ _ _ _ rfl,
      precedesB_append_no_q _ _ _ _ (callsNoPost _ _), precedesB_cons_not_q _ _ _ _ rfl]
    exact restSnackbarFirst inp
  unfold stageOrderedAmended
  rw [h1, h2, h3, h4, h5, h6, h7]
  rfl

theorem submittingAfter_append (init : Bool) (a b : List Event) :
    submittingAfter init (a ++ b) = submittingAfter (submittingAfter init a) b := by
  unfold submittingAfter
  rw [List.foldl_append]

theorem submittingAfter_calls (s : Bool) (n tk : Nat) :
    submittingAfter s (submissionCalls n tk) = s := by
  unfold submissionCalls
  suffices h : ∀ l : List Nat,
      submittingAfter s (l.map fun i => Event.processCall i tk) = s from h _
  intro l
  induction l with
  | nil => rfl
  | cons e l ih => exact ih

theorem submittingAfter_rest (s : Bool) (inp : ProviderInput) :
    submittingAfter s (submissionRest inp) = false := by
  unfold submissionRest
  cases collectResults inp.forms with
  | ok rs => cases inp.hasPostHandlers <;> cases inp.hasOnSubmit <;> rfl
  | error e => cases e <;> rfl

theorem submittingAfter_handleFormSubmission (s : Bool) (inp : ProviderInput) (tk : Nat) :
    submittingAfter s (handleFormSubmission inp tk) = false := by
  unfold handleFormSubmission
  rw [submittingAfter_append, submittingAfter_calls]
  exact submittingAfter_rest s inp

theorem submittingAfter_confirmTrace (s : Bool) (inp : ProviderInput) (tk : Nat) :
    submittingAfter s (handleIncompleteFormConfirmation inp tk) = false := by
  show submittingAfter s
    (submissionCalls inp.forms.length tk ++ (Event.modalClose :: submissionRest inp)) = false
  rw [submittingAfter_append, submittingAfter_calls]
  exact submittingAfter_rest s inp

/-- C1 counterexample: the claim's stage order fails as stated. On a
valid, non-empty, successfully processed submission with post-submission
handlers present (variant 1, single root form), the success snackbar — a
user notification — is shown before the post-submission actions run, so
"post-submission actions run before the form is closed or the user is
notified" is violated. -/
theorem c1_stage_order_counterexample :
    stageOrdered (runSubmission Variant.v1 sampleInputPost 0 true UserChoice.noAction) = false :=
  rfl

/-- C1 (amended): for every submission run of any variant, validation
precedes the empty check, the empty check precedes any confirmation,
confirmation precedes any processor call, all processor calls precede the
post-submission actions, and the post-submission actions precede closing
the form (handleClose / onSubmit / handleDiscardForm) and any error
toast; the success snackbar, however, is shown after processing completes
but before the post-submission actions run. -/
theorem c1_submission_stage_order_amended (v : Variant) (inp : ProviderInput) (tk : Nat)
    (c : UserChoice) :
    stageOrderedAmended (runSubmission v inp tk true c) = true := by
  cases v
  case v1 =>
    show stageOrderedAmended (handleFormSubmissionV1 inp tk true) = true
    unfold handleFormSubmissionV1
    cases hval : inp.forms.all validateForm
    · rfl
    · cases hh : inp.emptyHandler with
      | none => exact stageOrderedAmended_process _ _ inp tk
      | some h =>
        cases hemp : inp.forms.all validateEmptyForm
        · exact stageOrderedAmended_process _ _ inp tk
        · cases h with
          | resolves => rfl
          | rejects => rfl
          | boolRes b => cases b <;> rfl
          | otherRes => rfl
  case v2 =>
    show stageOrderedAmended (formFactoryEffectV2 inp tk true c) = true
    unfold formFactoryEffectV2
    cases hval : inp.forms.all validateForm
    · rfl
    · cases hemp : inp.forms.any validateEmptyFields
      · exact stageOrderedAmended_process _ _ inp tk
      · cases c with
        | confirm => exact stageOrderedAmended_confirm _ _ inp tk
        | discard => rfl
        | noAction => rfl
  case v3 =>
    show stageOrderedAmended (handleFormSubmissionV3 inp tk true) = true
    unfold handleFormSubmissionV3
    cases hval : inp.forms.all validateForm
    · cases hemp : inp.forms.all validateEmptyForm <;> cases hh : inp.emptyHandler <;> rfl
    · cases hemp : inp.forms.all validateEmptyForm
      · cases hh : inp.emptyHandler
        · exact stageOrderedAmended_process _ _ inp tk
        · exact stageOrderedAmended_process _ _ inp tk
      · cases hh : inp.emptyHandler
        · exact stageOrderedAmended_process _ _ inp tk
        · cases ‹EmptyHandlerResult› <;> rfl

/-- C10: every terminating path of the submission flow — validation
failure, empty-form handling, processor success, processor error, modal
confirmation or discard — leaves the `isSubmitting` flag false; the single
exception is the path that opens the empty-form confirmation modal with no
user decision yet, where the flag stays true. -/
theorem c10_submitting_reset (v : Variant) (inp : ProviderInput) (tk : Nat) (c : UserChoice) :
    submittingAfter true (runSubmission v inp tk true c) = modalPendingRun v inp c := by
  cases v
  case v1 =>
    show submittingAfter true (handleFormSubmissionV1 inp tk true) =
      modalPendingRun Variant.v1 inp c
    unfold handleFormSubmissionV1 modalPendingRun
    cases hval : inp.forms.all validateForm
    · rfl
    · cases hh : inp.emptyHandler with
      | none => exact submittingAfter_handleFormSubmission true inp tk
      | some h =>
        cases hemp : inp.forms.all validateEmptyForm
        · exact submittingAfter_handleFormSubmission true inp tk
        · cases h with
          | resolves => rfl
          | rejects => rfl
          | boolRes b => cases b <;> rfl
          | otherRes => rfl
  case v2 =>
    show submittingAfter true (formFactoryEffectV2 inp tk true c) =
      modalPendingRun Variant.v2 inp c
    unfold formFactoryEffectV2 modalPendingRun
    cases hval : inp.forms.all validateForm
    · rfl
    · cases hemp : inp.forms.any validateEmptyFields
      · exact submittingAfter_handleFormSubmission true inp tk
      · cases c with
        | confirm => exact submittingAfter_confirmTrace true inp tk
        | discard => rfl
        | noAction => rfl
  case v3 =>
    show submittingAfter true (handleFormSubmissionV3 inp tk true) =
      modalPendingRun Variant.v3 inp c
    unfold handleFormSubmissionV3 modalPendingRun
    cases hval : inp.forms.all validateForm
    · cases hemp : inp.forms.all validateEmptyForm <;> cases hh : inp.emptyHandler <;> rfl
    · cases hemp : inp.forms.all validateEmptyForm
      · cases hh : inp.emptyHandler
        · exact submittingAfter_handleFormSubmission true inp tk
        · exact submittingAfter_handleFormSubmission true inp tk
      · cases hh : inp.emptyHandler
        · exact submittingAfter_handleFormSubmission true inp tk
        · cases ‹EmptyHandlerResult› <;> rfl

theorem toasts_append (a b : List Event) : toasts (a ++ b) = toasts a ++ toasts b := by
  unfold toasts
  rw [List.filterMap_append]

theorem toasts_calls (n tk : Nat) : toasts (submissionCalls n tk) = [] := by
  unfold toasts submissionCalls
  suffices h : ∀ l : List Nat,
      (l.map fun i => Event.processCall i tk).filterMap toastProj = [] from h _
  intro l
  induction l with
  | nil => rfl
  | cons e l ih => exact ih

theorem toasts_rest_error (inp : ProviderInput) (e : Thrown)
    (he : collectResults inp.forms = .error e) :
    toasts (submissionRest inp) = [expectedToastArg e] := by
  unfold submissionRest
  rw [he]
  cases e <;> rfl

theorem toasts_process_block (inp : ProviderInput) (tk : Nat) (e : Thrown)
    (he : collectResults inp.forms = .error e) :
    toasts (submissionCalls inp.forms.length tk ++ submissionRest inp) =
      [expectedToastArg e] := by
  rw [toasts_append, toasts_calls, toasts_rest_error inp e he]
  rfl

theorem toasts_confirm_block (inp : ProviderInput) (tk : Nat) (e : Thrown)
    (he : collectResults inp.forms = .error e) :
    toasts (submissionCalls inp.forms.length tk ++ (Event.modalClose :: submissionRest inp)) =
      [expectedToastArg e] := by
  rw [toasts_append, toasts_calls]
  show toasts (submissionRest inp) = [expectedToastArg e]
  exact toasts_rest_error inp e he

/-- C3: in every submission run whose dispatched processors reject (the
joined `Promise.all` settles with a thrown value `e`), the error is caught
exactly once and exactly one toast is shown: for an `Error` instance, a
descriptor with kind `error`, `critical: true` and the error's message;
any other thrown value is passed to the toast display unmodified. -/
theorem c3_processor_error_toast (v : Variant) (inp : ProviderInput) (tk : Nat) (c : UserChoice)
    (e : Thrown) (he : collectResults inp.forms = .error e)
    (hd : dispatched (runSubmission v inp tk true c) = true) :
    toasts (runSubmission v inp tk true c) = [expectedToastArg e] := by
  cases v
  case v1 =>
    show toasts (handleFormSubmissionV1 inp tk true) = [expectedToastArg e]
    unfold handleFormSubmissionV1
    cases hval : inp.forms.all validateForm
    · revert hd
      show dispatched (handleFormSubmissionV1 inp tk true) = true → _
      unfold handleFormSubmissionV1
      rw [hval]
      intro hd
      exact Bool.noConfusion (show false = true from hd)
    · cases hh : inp.emptyHandler with
      | none => exact toasts_process_block inp tk e he
      | some h =>
        cases hemp : inp.forms.all validateEmptyForm
        · exact toasts_process_block inp tk e he
        · revert hd
          show dispatched (handleFormSubmissionV1 inp tk true) = true → _
          unfold handleFormSubmissionV1
          rw [hval, hh, hemp]
          intro hd
          cases h with
          | resolves => exact Bool.noConfusion (show false = true from hd)
          | rejects => exact Bool.noConfusion (show false = true from hd)
          | boolRes b => cases b <;> exact Bool.noConfusion (show false = true from hd)
          | otherRes => exact Bool.noConfusion (show false = true from hd)
  case v2 =>
    show toasts (formFactoryEffectV2 inp tk true c) = [expectedToastArg e]
    unfold formFactoryEffectV2
    cases hval : inp.forms.all validateForm
    · revert hd
      show dispatched (formFactoryEffectV2 inp tk true c) = true → _
      unfold formFactoryEffectV2
      rw [hval]
      intro hd
      exact Bool.noConfusion (show false = true from hd)
    · cases hemp : inp.forms.any validateEmptyFields
      · exact toasts_process_block inp tk e he
      · cases c with
        | confirm => exact toasts_confirm_block inp tk e he
        | discard =>
          revert hd
          show dispatched (formFactoryEffectV2 inp tk true UserChoice.discard) = true → _
          unfold formFactoryEffectV2
          rw [hval, hemp]
          intro hd
          exact Bool.noConfusion (show false = true from hd)
        | noAction =>
          revert hd
          show dispatched (formFactoryEffectV2 inp tk true UserChoice.noAction) = true → _
          unfold formFactoryEffectV2
          rw [hval, hemp]
          intro hd
          exact Bool.noConfusion (show false = true from hd)
  case v3 =>
    show toasts (handleFormSubmissionV3 inp tk true) = [expectedToastArg e]
    unfold handleFormSubmissionV3
    cases hval : inp.forms.all validateForm
    · revert hd
      show dispatched (handleFormSubmissionV3 inp tk true) = true → _
      unfold handleFormSubmissionV3
      rw [hval]
      intro hd
      cases hemp : inp.forms.all validateEmptyForm <;> cases hh : inp.emptyHandler <;>
        rw [hemp, hh] at hd <;> exact Bool.noConfusion (show false = true from hd)
    · cases hemp : inp.forms.all validateEmptyForm
      · cases hh : inp.emptyHandler <;> exact toasts_process_block inp tk e he
      · cases hh : inp.emptyHandler with
        | none => exact toasts_process_block inp tk e he
        | some h =>
          revert hd
          show dispatched (handleFormSubmissionV3 inp tk true) = true → _
          unfold handleFormSubmissionV3
          rw [hval, hemp, hh]
          intro hd
          cases h <;> exact Bool.noConfusion (show false = true from hd)

/-- C3 witness: a concrete two-form run in variant 3 where the second
form's processor rejects with an `Error` carrying message "boom". -/
theorem c3_witness :
    toasts (runSubmission Variant.v3 sampleInputErr 2 true UserChoice.noAction) =
      [expectedToastArg (Thrown.errObj "boom")] :=
  c3_processor_error_toast Variant.v3 sampleInputErr 2 UserChoice.noAction
    (Thrown.errObj "boom") (by decide) (by decide)

/-- C4: whenever some registered form fails `validateForm`, the submission
run's only observable effect is resetting `isSubmitting` to false — no
processor call, no toast, no snackbar, no modal. -/
theorem c4_validation_failure_silent (v : Variant) (inp : ProviderInput) (tk : Nat)
    (c : UserChoice) (hv : inp.forms.all validateForm = false) :
    observables (runSubmission v inp tk true c) = [Event.setSubmitting false] := by
  cases v
  case v1 =>
    show observables (handleFormSubmissionV1 inp tk true) = _
    unfold handleFormSubmissionV1
    rw [hv]
    rfl
  case v2 =>
    show observables (formFactoryEffectV2 inp tk true c) = _
    unfold formFactoryEffectV2
    rw [hv]
    rfl
  case v3 =>
    show observables (handleFormSubmissionV3 inp tk true) = _
    unfold handleFormSubmissionV3
    rw [hv]
    cases hemp : inp.forms.all validateEmptyForm <;> cases hh : inp.emptyHandler <;> rfl

/-- C4 witness: a concrete run (variant 2) with an invalid root form. -/
theorem c4_witness :
    observables (runSubmission Variant.v2 sampleInputInvalid 0 true UserChoice.noAction) =
      [Event.setSubmitting false] :=
  c4_validation_failure_silent Variant.v2 sampleInputInvalid 0 UserChoice.noAction (by decide)

theorem procCalls_append (a b : List Event) : procCalls (a ++ b) = procCalls a ++ procCalls b := by
  unfold procCalls
  rw [List.filterMap_append]

theorem procCalls_calls (n tk : Nat) :
    procCalls (submissionCalls n tk) = (List.range n).map (fun i => (i, tk)) := by
  unfold procCalls submissionCalls
  rw [List.filterMap_map]
  rw [show (procProj ∘ fun i => Event.processCall i tk) = some ∘ (fun i => (i, tk)) from rfl,
    List.filterMap_eq_map]

theorem procCalls_rest (inp : ProviderInput) : procCalls (submissionRest inp) = [] := by
  unfold submissionRest
  cases collectResults inp.forms with
  | ok rs => cases inp.hasPostHandlers <;> cases inp.hasOnSubmit <;> rfl
  | error e => cases e <;> rfl

theorem procCalls_handleFormSubmission (inp : ProviderInput) (tk : Nat) :
    procCalls (handleFormSubmission inp tk) =
      (List.range inp.forms.length).map (fun i => (i, tk)) := by
  unfold handleFormSubmission
  rw [procCalls_append, procCalls_calls, procCalls_rest]
  simp

theorem procCalls_confirmTrace (inp : ProviderInput) (tk : Nat) :
    procCalls (handleIncompleteFormConfirmation inp tk) =
      (List.range inp.forms.length).map (fun i => (i, tk)) := by
  show procCalls
    (submissionCalls inp.forms.length tk ++ (Event.modalClose :: submissionRest inp)) = _
  rw [procCalls_append, procCalls_calls,
    show procCalls (Event.modalClose :: submissionRest inp) =
      procCalls (submissionRest inp) from rfl,
    procCalls_rest]
  simp

theorem procCalls_run_cases (v : Variant) (inp : ProviderInput) (tk : Nat) (c : UserChoice) :
    procCalls (runSubmission v inp tk true c) = [] ∨
    procCalls (runSubmission v inp tk true c) =
      (List.range inp.forms.length).map (fun i => (i, tk)) := by
  cases v
  case v1 =>
    show procCalls (handleFormSubmissionV1 inp tk true) = [] ∨
      procCalls (handleFormSubmissionV1 inp tk true) =
        (List.range inp.forms.length).map (fun i => (i, tk))
    unfold handleFormSubmissionV1
    cases hval : inp.forms.all validateForm
    · exact Or.inl rfl
    · cases hh : inp.emptyHandler with
      | none => exact Or.inr (procCalls_handleFormSubmission inp tk)
      | some h =>
        cases hemp : inp.forms.all validateEmptyForm
        · exact Or.inr (procCalls_handleFormSubmission inp tk)
        · cases h with
          | resolves => exact Or.inl rfl
          | rejects => exact Or.inl rfl
          | boolRes b => cases b <;> exact Or.inl rfl
          | otherRes => exact Or.inl rfl
  case v2 =>
    show procCalls (formFactoryEffectV2 inp tk true c) = [] ∨
      procCalls (formFactoryEffectV2 inp tk true c) =
        (List.range inp.forms.length).map (fun i => (i, tk))
    unfold formFactoryEffectV2
    cases hval : inp.forms.all validateForm
    · exact Or.inl rfl
    · cases hemp : inp.forms.any validateEmptyFields
      · exact Or.inr (procCalls_handleFormSubmission inp tk)
      · cases c with
        | confirm => exact Or.inr (procCalls_confirmTrace inp tk)
        | discard => exact Or.inl rfl
        | noAction => exact Or.inl rfl
  case v3 =>
    show procCalls (handleFormSubmissionV3 inp tk true) = [] ∨
      procCalls (handleFormSubmissionV3 inp tk true) =
        (List.range inp.forms.length).map (fun i => (i, tk))
    unfold handleFormSubmissionV3
    cases hval : inp.forms.all validateForm
    · cases hemp : inp.forms.all validateEmptyForm <;> cases hh : inp.emptyHandler <;>
        exact Or.inl rfl
    · cases hemp : inp.forms.all validateEmptyForm
      · cases hh : inp.emptyHandler <;> exact Or.inr (procCalls_handleFormSubmission inp tk)
      · cases hh : inp.emptyHandler with
        | none => exact Or.inr (procCalls_handleFormSubmission inp tk)
        | some h => cases h <;> exact Or.inl rfl

/-- C6 counterexample: the claim says the shared controller is aborted on
the effect's cleanup, but variant 2's submission effect returns no cleanup
at all, so its controller is never aborted. -/
theorem c6_cleanup_counterexample :
    ¬ ((effectCleanup Variant.v2 0).any (fun e => decide (e = Event.abortEv 0)) = true) := by
  decide

/-- C6 (amended): every `processSubmission` call of a submission run
receives the same controller token, and that controller is aborted by the
effect cleanup in variants 1 and 3; variant 2's submission effect has no
cleanup, so its controller is never aborted. -/
theorem c6_shared_token_amended (v : Variant) (inp : ProviderInput) (tk : Nat) (s : Bool)
    (c : UserChoice) :
    (procCalls (runSubmission v inp tk s c)).all (fun pr => pr.2 == tk) = true ∧
    effectCleanup Variant.v1 tk = [Event.abortEv tk] ∧
    effectCleanup Variant.v3 tk = [Event.abortEv tk] ∧
    effectCleanup Variant.v2 tk = [] := by
  refine ⟨?_, rfl, rfl, rfl⟩
  cases s
  · cases v <;> rfl
  · rcases procCalls_run_cases v inp tk c with h | h <;> rw [h]
    · rfl
    · rw [List.all_eq_true]
      intro x hx
      rw [List.mem_map] at hx
      obtain ⟨i, _, rfl⟩ := hx
      simp

/-- C8: in the variants that take a `handleEmptyFormSubmission` callback
(variants 1 and 3), when all forms are valid and empty but no callback is
provided, the run proceeds directly to the processors with no
confirmation step and no empty-form handling. -/
theorem c8_no_handler_empty_proceeds (inp : ProviderInput) (tk : Nat)
    (hh : inp.emptyHandler = none)
    (hv : inp.forms.all validateForm = true)
    (he : inp.forms.all validateEmptyForm = true) :
    handleFormSubmissionV1 inp tk true =
      Event.validateAll true :: Event.emptyCheck true :: handleFormSubmission inp tk ∧
    handleFormSubmissionV3 inp tk true =
      Event.validateAll true :: Event.emptyCheck true :: handleFormSubmission inp tk := by
  constructor
  · unfold handleFormSubmissionV1
    rw [hv, he, hh]
    rfl
  · unfold handleFormSubmissionV3
    rw [hv, he, hh]
    rfl

/-- C8 witness: a concrete two-form empty, valid input with no callback. -/
theorem c8_witness :
    handleFormSubmissionV1 sampleInputNoHandler 4 true =
      Event.validateAll true :: Event.emptyCheck true ::
        handleFormSubmission sampleInputNoHandler 4 ∧
    handleFormSubmissionV3 sampleInputNoHandler 4 true =
      Event.validateAll true :: Event.emptyCheck true ::
        handleFormSubmission sampleInputNoHandler 4 :=
  c8_no_handler_empty_proceeds sampleInputNoHandler 4 (by decide) (by decide) (by decide)

/-- C9: in variants 1 and 3, when the callback is provided and all forms
are valid and empty, no processor is ever dispatched — whether the
callback resolves, rejects, or returns a boolean — and `isSubmitting` is
reset to false; on rejection variant 1 additionally leaves the form open
(no `handleClose`). -/
theorem c9_handler_present_no_processing (inp : ProviderInput) (tk : Nat)
    (h : EmptyHandlerResult) (hh : inp.emptyHandler = some h)
    (hv : inp.forms.all validateForm = true)
    (he : inp.forms.all validateEmptyForm = true) :
    dispatched (handleFormSubmissionV1 inp tk true) = false ∧
    submittingAfter true (handleFormSubmissionV1 inp tk true) = false ∧
    dispatched (handleFormSubmissionV3 inp tk true) = false ∧
    submittingAfter true (handleFormSubmissionV3 inp tk true) = false ∧
    (h = .rejects →
      (handleFormSubmissionV1 inp tk true).any (fun x => decide (x = Event.closeForm)) = false) := by
  refine ⟨?_, ?_, ?_, ?_, ?_⟩
  · unfold handleFormSubmissionV1
    rw [hv, he, hh]
    cases h with
    | resolves => rfl
    | rejects => rfl
    | boolRes b => cases b <;> rfl
    | otherRes => rfl
  · unfold handleFormSubmissionV1
    rw [hv, he, hh]
    cases h with
    | resolves => rfl
    | rejects => rfl
    | boolRes b => cases b <;> rfl
    | otherRes => rfl
  · unfold handleFormSubmissionV3
    rw [hv, he, hh]
    cases h <;> rfl
  · unfold handleFormSubmissionV3
    rw [hv, he, hh]
    cases h <;> rfl
  · intro hr
    subst hr
    unfold handleFormSubmissionV1
    rw [hv, he, hh]
    rfl

/-- C9 witness: a concrete two-form empty, valid input whose callback
returns a rejecting promise. -/
theorem c9_witness :
    dispatched (handleFormSubmissionV1 sampleInputEmpty 3 true) = false ∧
    submittingAfter true (handleFormSubmissionV1 sampleInputEmpty 3 true) = false ∧
    dispatched (handleFormSubmissionV3 sampleInputEmpty 3 true) = false ∧
    submittingAfter true (handleFormSubmissionV3 sampleInputEmpty 3 true) = false ∧
    (EmptyHandlerResult.rejects = EmptyHandlerResult.rejects →
      (handleFormSubmissionV1 sampleInputEmpty 3 true).any
        (fun x => decide (x = Event.closeForm)) = false) :=
  c9_handler_present_no_processing sampleInputEmpty 3 EmptyHandlerResult.rejects
    (by decide) (by decide) (by decide)

theorem forms_any_of_all (inp : ProviderInput) (p : FormCtx → Bool)
    (h : inp.forms.all p = true) : inp.forms.any p = true := by
  rw [show inp.forms = inp.rootForm :: inp.subForms from rfl] at h ⊢
  rw [List.all_cons, Bool.and_eq_true] at h
  rw [List.any_cons, h.1]
  rfl

/-- C2: in variant 2, whenever every registered form passes `validateForm`
and every form is empty (`validateEmptyFields`), the confirmation modal is
opened, it is opened before any `processSubmission` dispatch, and no
`processSubmission` is dispatched unless the user confirms. -/
theorem c2_empty_valid_modal_gate (inp : ProviderInput) (tk : Nat) (c : UserChoice)
    (hv : inp.forms.all validateForm = true)
    (he : inp.forms.all validateEmptyFields = true) :
    Event.modalOpen ∈ formFactoryEffectV2 inp tk true c ∧
    precedesB isModalOpenEv isProcessEv (formFactoryEffectV2 inp tk true c) = true ∧
    (dispatched (formFactoryEffectV2 inp tk true c) = true → c = UserChoice.confirm) := by
  have hany := forms_any_of_all inp validateEmptyFields he
  refine ⟨?_, ?_, ?_⟩
  · unfold formFactoryEffectV2
    rw [hv, hany]
    exact List.mem_cons_of_mem _ (List.mem_cons_of_mem _ (List.mem_cons_self _ _))
  · unfold formFactoryEffectV2
    rw [hv, hany]
    cases c with
    | confirm =>
      show precedesB isModalOpenEv isProcessEv
        (Event.validateAll true :: Event.emptyCheck true :: Event.modalOpen ::
          handleIncompleteFormConfirmation inp tk) = true
      rw [precedesB_cons_not_q _ _ _ _ rfl, precedesB_cons_not_q _ _ _ _ rfl,
        precedesB_cons_not_q _ _ _ _ rfl]
      apply precedesB_of_all_not_p
      unfold handleIncompleteFormConfirmation
      rw [List.all_cons, List.all_append, callsNoModalOpen, List.all_cons, restNoModalOpen]
      rfl
    | discard =>
      apply precedesB_of_all_not_q
      rfl
    | noAction =>
      apply precedesB_of_all_not_q
      rfl
  · cases c with
    | confirm => intro _; rfl
    | discard =>
      unfold formFactoryEffectV2
      rw [hv, hany]
      intro hd
      exact Bool.noConfusion (show false = true from hd)
    | noAction =>
      unfold formFactoryEffectV2
      rw [hv, hany]
      intro hd
      exact Bool.noConfusion (show false = true from hd)

/-- C2 witness: a concrete two-form empty, valid input, with the user
confirming. -/
theorem c2_witness :
    Event.modalOpen ∈ formFactoryEffectV2 sampleInputEmpty 1 true UserChoice.confirm ∧
    precedesB isModalOpenEv isProcessEv
      (formFactoryEffectV2 sampleInputEmpty 1 true UserChoice.confirm) = true ∧
    (dispatched (formFactoryEffectV2 sampleInputEmpty 1 true UserChoice.confirm) = true →
      UserChoice.confirm = UserChoice.confirm) :=
  c2_empty_valid_modal_gate sampleInputEmpty 1 UserChoice.confirm (by decide) (by decide)

/-- C5: the confirmation modal gates empty submissions: on confirmation,
every registered form is dispatched to its processor and the modal is
closed; on discard, the modal is closed, `isSubmitting` is reset and no
processor is ever dispatched; the modal wires Confirm to `onConfirmation`
and both Cancel and the modal close action to `onDiscard`. -/
theorem c5_modal_gating (inp : ProviderInput) (tk : Nat)
    (hv : inp.forms.all validateForm = true)
    (he : inp.forms.any validateEmptyFields = true) :
    procCalls (formFactoryEffectV2 inp tk true UserChoice.confirm) =
      (List.range inp.forms.length).map (fun i => (i, tk)) ∧
    Event.modalClose ∈ formFactoryEffectV2 inp tk true UserChoice.confirm ∧
    dispatched (formFactoryEffectV2 inp tk true UserChoice.discard) = false ∧
    Event.modalClose ∈ formFactoryEffectV2 inp tk true UserChoice.discard ∧
    submittingAfter true (formFactoryEffectV2 inp tk true UserChoice.discard) = false ∧
    incompleteFormConfirmationModal ModalAction.clickConfirm = UserChoice.confirm ∧
    incompleteFormConfirmationModal ModalAction.clickCancel = UserChoice.discard ∧
    incompleteFormConfirmationModal ModalAction.closeAction = UserChoice.discard := by
  refine ⟨?_, ?_, ?_, ?_, ?_, rfl, rfl, rfl⟩
  · unfold formFactoryEffectV2
    rw [hv, he]
    exact procCalls_confirmTrace inp tk
  · unfold formFactoryEffectV2
    rw [hv, he]
    apply List.mem_cons_of_mem
    apply List.mem_cons_of_mem
    apply List.mem_cons_of_mem
    unfold handleIncompleteFormConfirmation
    apply List.mem_cons_of_mem
    exact List.mem_append.mpr (Or.inr (List.mem_cons_self _ _))
  · unfold formFactoryEffectV2
    rw [hv, he]
    rfl
  · unfold formFactoryEffectV2
    rw [hv, he]
    exact List.mem_cons_of_mem _ (List.mem_cons_of_mem _ (List.mem_cons_of_mem _
      (List.mem_cons_of_mem _ (List.mem_cons_self _ _))))
  · unfold formFactoryEffectV2
    rw [hv, he]
    rfl

/-- C5 witness: the concrete two-form empty, valid input. -/
theorem c5_witness :
    procCalls (formFactoryEffectV2 sampleInputEmpty 1 true UserChoice.confirm) =
      (List.range sampleInputEmpty.forms.length).map (fun i => (i, 1)) ∧
    Event.modalClose ∈ formFactoryEffectV2 sampleInputEmpty 1 true UserChoice.confirm ∧
    dispatched (formFactoryEffectV2 sampleInputEmpty 1 true UserChoice.discard) = false ∧
    Event.modalClose ∈ formFactoryEffectV2 sampleInputEmpty 1 true UserChoice.discard ∧
    submittingAfter true (formFactoryEffectV2 sampleInputEmpty 1 true UserChoice.discard) = false ∧
    incompleteFormConfirmationModal ModalAction.clickConfirm = UserChoice.confirm ∧
    incompleteFormConfirmationModal ModalAction.clickCancel = UserChoice.discard ∧
    incompleteFormConfirmationModal ModalAction.closeAction = UserChoice.discard :=
  c5_modal_gating sampleInputEmpty 1 (by decide) (by decide)

theorem collectResults_length (fs : List FormCtx) (rs : List Nat)
    (h : collectResults fs = .ok rs) : rs.length = fs.length := by
  induction fs generalizing rs with
  | nil =>
    unfold collectResults at h
    cases h
    rfl
  | cons f fs ih =>
    unfold collectResults at h
    cases ho : f.outcome with
    | ok r =>
      rw [ho] at h
      cases hc : collectResults fs with
      | ok rs2 =>
        rw [hc] at h
        cases h
        rw [List.length_cons, ih rs2 hc]
        rfl
      | error e =>
        rw [hc] at h
        cases h
    | error e =>
      rw [ho] at h
      cases h

theorem mem_rest_post (inp : ProviderInput) (results : List Nat)
    (hok : collectResults inp.forms = .ok results) (hph : inp.hasPostHandlers = true) :
    Event.postActions results ∈ submissionRest inp := by
  unfold submissionRest
  rw [hok, hph]
  simp

theorem mem_rest_onSubmit (inp : ProviderInput) (results : List Nat)
    (hok : collectResults inp.forms = .ok results) (hos : inp.hasOnSubmit = true) :
    Event.onSubmitCall results ∈ submissionRest inp := by
  unfold submissionRest
  rw [hok, hos]
  cases inp.hasPostHandlers <;> simp

theorem mem_hFS_post (inp : ProviderInput) (tk : Nat) (results : List Nat)
    (hok : collectResults inp.forms = .ok results) (hph : inp.hasPostHandlers = true) :
    Event.postActions results ∈ handleFormSubmission inp tk := by
  unfold handleFormSubmission
  exact List.mem_append.mpr (Or.inr (mem_rest_post inp results hok hph))

theorem mem_hFS_onSubmit (inp : ProviderInput) (tk : Nat) (results : List Nat)
    (hok : collectResults inp.forms = .ok results) (hos : inp.hasOnSubmit = true) :
    Event.onSubmitCall results ∈ handleFormSubmission inp tk := by
  unfold handleFormSubmission
  exact List.mem_append.mpr (Or.inr (mem_rest_onSubmit inp results hok hos))

/-- C7: for every non-empty (by the variant's own emptiness criterion),
valid submission whose processors all resolve, each registered form
context — the root form followed by every registered sub-form, identified
by position — is dispatched exactly once, in order, to its own processor
with the shared controller token; the collected results are one per form,
and they are what is forwarded to the post-submission actions and to
`onSubmit` whenever those are present. -/
theorem c7_forms_dispatched_once (v : Variant) (inp : ProviderInput) (tk : Nat)
    (c : UserChoice) (results : List Nat)
    (hv : inp.forms.all validateForm = true)
    (hne : variantEmpty v inp = false)
    (hok : collectResults inp.forms = .ok results) :
    procCalls (runSubmission v inp tk true c) =
      (List.range inp.forms.length).map (fun i => (i, tk)) ∧
    results.length = inp.forms.length ∧
    (inp.hasPostHandlers = true →
      Event.postActions results ∈ runSubmission v inp tk true c) ∧
    (inp.hasOnSubmit = true →
      Event.onSubmitCall results ∈ runSubmission v inp tk true c) := by
  cases v
  case v1 =>
    have hne1 : inp.forms.all validateEmptyForm = false := hne
    refine ⟨?_, collectResults_length _ _ hok, ?_, ?_⟩
    · show procCalls (handleFormSubmissionV1 inp tk true) = _
      unfold handleFormSubmissionV1
      rw [hv]
      cases hh : inp.emptyHandler with
      | none => exact procCalls_handleFormSubmission inp tk
      | some h =>
        rw [hne1]
        exact procCalls_handleFormSubmission inp tk
    · intro hph
      show Event.postActions results ∈ handleFormSubmissionV1 inp tk true
      unfold handleFormSubmissionV1
      rw [hv]
      cases hh : inp.emptyHandler with
      | none =>
        exact List.mem_cons_of_mem _ (List.mem_cons_of_mem _ (mem_hFS_post inp tk results hok hph))
      | some h =>
        rw [hne1]
        exact List.mem_cons_of_mem _ (List.mem_cons_of_mem _ (mem_hFS_post inp tk results hok hph))
    · intro hos
      show Event.onSubmitCall results ∈ handleFormSubmissionV1 inp tk true
      unfold handleFormSubmissionV1
      rw [hv]
      cases hh : inp.emptyHandler with
      | none =>
        exact List.mem_cons_of_mem _
          (List.mem_cons_of_mem _ (mem_hFS_onSubmit inp tk results hok hos))
      | some h =>
        rw [hne1]
        exact List.mem_cons_of_mem _
          (List.mem_cons_of_mem _ (mem_hFS_onSubmit inp tk results hok hos))
  case v2 =>
    have hne2 : inp.forms.any validateEmptyFields = false := hne
    refine ⟨?_, collectResults_length _ _ hok, ?_, ?_⟩
    · show procCalls (formFactoryEffectV2 inp tk true c) = _
      unfold formFactoryEffectV2
      rw [hv, hne2]
      exact procCalls_handleFormSubmission inp tk
    · intro hph
      show Event.postActions results ∈ formFactoryEffectV2 inp tk true c
      unfold formFactoryEffectV2
      rw [hv, hne2]
      exact List.mem_cons_of_mem _ (List.mem_cons_of_mem _ (mem_hFS_post inp tk results hok hph))
    · intro hos
      show Event.onSubmitCall results ∈ formFactoryEffectV2 inp tk true c
      unfold formFactoryEffectV2
      rw [hv, hne2]
      exact List.mem_cons_of_mem _
        (List.mem_cons_of_mem _ (mem_hFS_onSubmit inp tk results hok hos))
  case v3 =>
    have hne3 : inp.forms.all validateEmptyForm = false := hne
    refine ⟨?_, collectResults_length _ _ hok, ?_, ?_⟩
    · show procCalls (handleFormSubmissionV3 inp tk true) = _
      unfold handleFormSubmissionV3
      rw [hv, hne3]
      cases hh : inp.emptyHandler <;> exact procCalls_handleFormSubmission inp tk
    · intro hph
      show Event.postActions results ∈ handleFormSubmissionV3 inp tk true
      unfold handleFormSubmissionV3
      rw [hv, hne3]
      cases hh : inp.emptyHandler <;>
        exact List.mem_cons_of_mem _ (List.mem_cons_of_mem _ (mem_hFS_post inp tk results hok hph))
    · intro hos
      show Event.onSubmitCall results ∈ handleFormSubmissionV3 inp tk true
      unfold handleFormSubmissionV3
      rw [hv, hne3]
      cases hh : inp.emptyHandler <;>
        exact List.mem_cons_of_mem _
          (List.mem_cons_of_mem _ (mem_hFS_onSubmit inp tk results hok hos))

/-- C7 witness: a concrete single-form valid, non-empty input whose
processor resolves with result 7, with post-submission handlers and an
onSubmit callback present. -/
theorem c7_witness :
    procCalls (runSubmission Variant.v1 sampleInputPost 0 true UserChoice.noAction) =
      (List.range sampleInputPost.forms.length).map (fun i => (i, 0)) ∧
    [7].length = sampleInputPost.forms.length ∧
    (sampleInputPost.hasPostHandlers = true →
      Event.postActions [7] ∈ runSubmission Variant.v1 sampleInputPost 0 true UserChoice.noAction) ∧
    (sampleInputPost.hasOnSubmit = true →
      Event.onSubmitCall [7] ∈ runSubmission Variant.v1 sampleInputPost 0 true UserChoice.noAction) :=
  c7_forms_dispatched_once Variant.v1 sampleInputPost 0 UserChoice.noAction [7]
    (by decide) (by decide) (by decide)

end FormEngine
